import Mathlib

/-!
Verification of the Density-Calculator repository (src/DensityCalc.py).

The program is embedded shallowly over `ℚ` (exact arithmetic): the
`UnitConverter` methods become functions returning `Except ConvError ℚ`
(a Python `raise ValueError` becomes an `Except.error`), and the
calculation body of `density_calculation_app` (the guard, the two unit
conversions, and the ideal-gas density formula) becomes `compute`,
returning the displayed result values or a typed error.
-/

namespace DensityCalc

/-- Errors raised by `UnitConverter` methods: `ValueError("Unknown ... unit")`
in `convert_pressure` / `convert_temperature`, and the
`ValueError("Density conversion not implemented ...")` of `convert_density`. -/
inductive ConvError where
  | UnknownUnit (u : String)
  | NotImplemented
  deriving DecidableEq, Repr

/-- `UnitConverter.convert_pressure`, step 1: convert to the base unit (kPa).
Mirrors the first if/elif chain of the source (lines 11-24). -/
def pressure_to_base (value : ℚ) (from_unit : String) : Except ConvError ℚ :=
  if from_unit = "barg" then .ok (value * 100 + 101.325)
  else if from_unit = "kg/cm2" then .ok (value * 98.0665)
  else if from_unit = "pasig" then .ok (value * 0.00689476)
  else if from_unit = "kPa" then .ok value
  else if from_unit = "pascal" then .ok (value / 1000)
  else if from_unit = "mmH2O" then .ok (value * 0.00980638)
  else .error (ConvError.UnknownUnit from_unit)

/-- `UnitConverter.convert_pressure`, step 2: convert from the base unit (kPa)
to the target unit. Mirrors the second if/elif chain (lines 27-40). -/
def pressure_from_base (base_value : ℚ) (to_unit : String) : Except ConvError ℚ :=
  if to_unit = "barg" then .ok ((base_value - 101.325) / 100)
  else if to_unit = "kg/cm2" then .ok (base_value / 98.0665)
  else if to_unit = "pasig" then .ok (base_value / 0.00689476)
  else if to_unit = "kPa" then .ok base_value
  else if to_unit = "pascal" then .ok (base_value * 1000)
  else if to_unit = "mmH2O" then .ok (base_value / 0.00980638)
  else .error (ConvError.UnknownUnit to_unit)

/-- `UnitConverter.convert_pressure` (lines 9-40). -/
def convert_pressure (value : ℚ) (from_unit to_unit : String) : Except ConvError ℚ :=
  (pressure_to_base value from_unit).bind (fun b => pressure_from_base b to_unit)

/-- `UnitConverter.convert_temperature`, step 1: convert to the base unit
(Kelvin). Mirrors lines 44-53. -/
def temperature_to_base (value : ℚ) (from_unit : String) : Except ConvError ℚ :=
  if from_unit = "C" then .ok (value + 273.15)
  else if from_unit = "F" then .ok ((value - 32) * (5/9) + 273.15)
  else if from_unit = "K" then .ok value
  else if from_unit = "R" then .ok (value * (5/9))
  else .error (ConvError.UnknownUnit from_unit)

/-- `UnitConverter.convert_temperature`, step 2: convert from Kelvin to the
target unit. Mirrors lines 56-65. -/
def temperature_from_base (base_value : ℚ) (to_unit : String) : Except ConvError ℚ :=
  if to_unit = "C" then .ok (base_value - 273.15)
  else if to_unit = "F" then .ok ((base_value - 273.15) * (9/5) + 32)
  else if to_unit = "K" then .ok base_value
  else if to_unit = "R" then .ok (base_value * (9/5))
  else .error (ConvError.UnknownUnit to_unit)

/-- `UnitConverter.convert_temperature` (lines 42-65). -/
def convert_temperature (value : ℚ) (from_unit to_unit : String) : Except ConvError ℚ :=
  (temperature_to_base value from_unit).bind (fun b => temperature_from_base b to_unit)

/-- `UnitConverter.convert_density` (lines 68-71): identity when the units
coincide, otherwise `ValueError("Density conversion not implemented ...")`. -/
def convert_density (value : ℚ) (from_unit to_unit : String) : Except ConvError ℚ :=
  if from_unit = to_unit then .ok value
  else .error ConvError.NotImplemented

/-- `UNIVERSAL_GAS_CONSTANT = 8.314` (line 78). -/
def UNIVERSAL_GAS_CONSTANT : ℚ := 8.314

/-- The pressure-unit selector options (line 86). -/
def pressure_units : List String := ["barg", "kg/cm2", "pasig", "kPa", "pascal", "mmH2O"]

/-- The temperature-unit selector options (line 87). -/
def temp_units : List String := ["C", "F", "K", "R"]

/-- Typed failures of the calculation body: the `InvalidInput` guard message
(line 115), the caught `ValueError` from a unit conversion (line 156), and the
catch-all `except Exception` (line 158). -/
inductive DensityError where
  | InvalidInput
  | UnitConversionError (u : String)
  | ComputationError
  deriving DecidableEq, Repr

/-- The values the app displays on success (lines 146-153): the density and
the three SI-normalized intermediates. -/
structure DensityResult where
  density : ℚ
  pressure_pa : ℚ
  temperature_k : ℚ
  molecular_weight_kg_mol : ℚ
  deriving DecidableEq, Repr

/-- Re-surface a converter error the way the app's `except ValueError`
handler does (lines 155-158). -/
def liftConvError : ConvError → DensityError
  | ConvError.UnknownUnit u => DensityError.UnitConversionError u
  | ConvError.NotImplemented => DensityError.ComputationError

/-- The calculation performed by `density_calculation_app` when the button is
pressed (lines 112-153): guard on the raw `compressibility_factor` and
`temperature_value`, convert pressure to kPa and temperature to K, then
evaluate `density = (pressure_pa * molecular_weight_kg_mol) /
(compressibility_factor * UNIVERSAL_GAS_CONSTANT * temperature_k)`. -/
def compute (pressure_value : ℚ) (pressure_unit : String)
    (temperature_value : ℚ) (temperature_unit : String)
    (molecular_weight : ℚ) (compressibility_factor : ℚ) :
    Except DensityError DensityResult :=
  if compressibility_factor ≤ 0 ∨ temperature_value ≤ 0 then
    .error DensityError.InvalidInput
  else
    match convert_pressure pressure_value pressure_unit "kPa" with
    | .error e => .error (liftConvError e)
    | .ok pressure_kpa =>
      match convert_temperature temperature_value temperature_unit "K" with
      | .error e => .error (liftConvError e)
      | .ok temperature_k =>
        let pressure_pa := pressure_kpa * 1000
        let molecular_weight_kg_mol := molecular_weight / 1000
        let density := (pressure_pa * molecular_weight_kg_mol) /
          (compressibility_factor * UNIVERSAL_GAS_CONSTANT * temperature_k)
        .ok ⟨density, pressure_pa, temperature_k, molecular_weight_kg_mol⟩

/-! ## Helper lemmas -/

/-- Converting to the base unit kPa as target is the identity on the base value:
`convert_pressure v u "kPa"` is just the to-base step. -/
theorem convert_pressure_to_kpa (v : ℚ) (u : String) :
    convert_pressure v u "kPa" = pressure_to_base v u := by
  unfold convert_pressure
  cases h : pressure_to_base v u <;> simp [pressure_from_base, Except.bind]

/-- Converting to the base unit Kelvin as target is the identity on the base
value: `convert_temperature v u "K"` is just the to-base step. -/
theorem convert_temperature_to_k (v : ℚ) (u : String) :
    convert_temperature v u "K" = temperature_to_base v u := by
  unfold convert_temperature
  cases h : temperature_to_base v u <;> simp [temperature_from_base, Except.bind]

/-- The to-base pressure step succeeds on every supported unit. -/
theorem pressure_to_base_ok (v : ℚ) (u : String) (hu : u ∈ pressure_units) :
    ∃ b, pressure_to_base v u = .ok b := by
  simp only [pressure_units] at hu
  fin_cases hu <;> simp [pressure_to_base]

/-- The to-base pressure step fails with `UnknownUnit` on every unsupported
unit. -/
theorem pressure_to_base_err (v : ℚ) (u : String) (hu : u ∉ pressure_units) :
    pressure_to_base v u = .error (ConvError.UnknownUnit u) := by
  simp only [pressure_units, List.mem_cons, List.not_mem_nil, or_false] at hu
  push_neg at hu
  obtain ⟨h1, h2, h3, h4, h5, h6⟩ := hu
  simp [pressure_to_base, h1, h2, h3, h4, h5, h6]

/-- The from-base pressure step succeeds on every supported unit. -/
theorem pressure_from_base_ok (b : ℚ) (u : String) (hu : u ∈ pressure_units) :
    ∃ r, pressure_from_base b u = .ok r := by
  simp only [pressure_units] at hu
  fin_cases hu <;> simp [pressure_from_base]

/-- The from-base pressure step fails with `UnknownUnit` on every unsupported
unit. -/
theorem pressure_from_base_err (b : ℚ) (u : String) (hu : u ∉ pressure_units) :
    pressure_from_base b u = .error (ConvError.UnknownUnit u) := by
  simp only [pressure_units, List.mem_cons, List.not_mem_nil, or_false] at hu
  push_neg at hu
  obtain ⟨h1, h2, h3, h4, h5, h6⟩ := hu
  simp [pressure_from_base, h1, h2, h3, h4, h5, h6]

/-- The to-base temperature step succeeds on every supported unit, and on a
strictly positive raw value the Kelvin result is strictly positive. -/
theorem temperature_to_base_pos (v : ℚ) (u : String) (hu : u ∈ temp_units)
    (hv : 0 < v) : ∃ t, temperature_to_base v u = .ok t ∧ 0 < t := by
  simp only [temp_units] at hu
  fin_cases hu <;> simp [temperature_to_base] <;> nlinarith

/-- The guard passes and both conversions succeed, so `compute` returns the
formula value together with the SI intermediates. -/
theorem compute_ok (pv tv mw z pkpa tk : ℚ) (pu tu : String)
    (hz : 0 < z) (ht : 0 < tv)
    (hp : convert_pressure pv pu "kPa" = .ok pkpa)
    (hT : convert_temperature tv tu "K" = .ok tk) :
    compute pv pu tv tu mw z =
      .ok ⟨(pkpa * 1000 * (mw / 1000)) / (z * UNIVERSAL_GAS_CONSTANT * tk),
        pkpa * 1000, tk, mw / 1000⟩ := by
  unfold compute
  rw [if_neg (by push_neg; exact ⟨hz, ht⟩), hp, hT]

/-! ## Claim theorems -/

/-- C1: for every input whose pressure unit is one of
barg, kg/cm2, pasig, kPa, pascal, mmH2O and temperature unit is one of
C, F, K, R, with compressibility factor > 0 and raw temperature value > 0,
`compute` returns the density
`(pressure_Pa * molecular_weight_kg_per_mol) / (Z * 8.314 * temperature_K)`
where `pressure_Pa` is `convert_pressure(pressure_value, unit, kPa)` times
1000, `temperature_K` is `convert_temperature(temperature_value, unit, K)`,
and `molecular_weight_kg_per_mol` is the molecular weight divided by 1000;
the result also carries these three SI-normalized intermediate values. -/
theorem compute_density_formula (pv tv mw z : ℚ) (pu tu : String)
    (hpu : pu ∈ pressure_units) (htu : tu ∈ temp_units)
    (hz : 0 < z) (ht : 0 < tv) :
    ∃ pkpa tk, convert_pressure pv pu "kPa" = .ok pkpa ∧
      convert_temperature tv tu "K" = .ok tk ∧
      compute pv pu tv tu mw z =
        .ok ⟨(pkpa * 1000 * (mw / 1000)) / (z * 8.314 * tk),
          pkpa * 1000, tk, mw / 1000⟩ := by
  obtain ⟨pkpa, hp⟩ := pressure_to_base_ok pv pu hpu
  obtain ⟨tk, hT, _⟩ := temperature_to_base_pos tv tu htu ht
  refine ⟨pkpa, tk, ?_, ?_, ?_⟩
  · rw [convert_pressure_to_kpa]; exact hp
  · rw [convert_temperature_to_k]; exact hT
  · rw [show (8.314 : ℚ) = UNIVERSAL_GAS_CONSTANT from rfl]
    exact compute_ok pv tv mw z pkpa tk pu tu hz ht
      (by rw [convert_pressure_to_kpa]; exact hp)
      (by rw [convert_temperature_to_k]; exact hT)

/-- Witness for C1 at pressure 2 barg, temperature 50 F, MW 28, Z 1. -/
theorem compute_density_formula_witness :
    "barg" ∈ pressure_units ∧ "F" ∈ temp_units ∧ (0 : ℚ) < 1 ∧ (0 : ℚ) < 50 ∧
    ∃ pkpa tk, convert_pressure 2 "barg" "kPa" = .ok pkpa ∧
      convert_temperature 50 "F" "K" = .ok tk ∧
      compute 2 "barg" 50 "F" 28 1 =
        .ok ⟨(pkpa * 1000 * (28 / 1000)) / (1 * 8.314 * tk),
          pkpa * 1000, tk, 28 / 1000⟩ :=
  ⟨by decide, by decide, by norm_num, by norm_num,
    compute_density_formula 2 50 28 1 "barg" "F" (by decide) (by decide)
      (by norm_num) (by norm_num)⟩

/-- C2: for every input with compressibility factor ≤ 0 or raw temperature
value ≤ 0 (judged before any conversion), `compute` fails with `InvalidInput`
and no unit conversion is attempted: the statement holds for arbitrary unit
strings, including unsupported ones, which would otherwise surface a
`UnitConversionError`. -/
theorem compute_invalid_input (pv tv mw z : ℚ) (pu tu : String)
    (h : z ≤ 0 ∨ tv ≤ 0) :
    compute pv pu tv tu mw z = .error DensityError.InvalidInput := by
  unfold compute
  rw [if_pos h]

/-- Witness for C2: Z = 0 fails, and temperature −10 fails even with a
nonsense pressure unit (showing the conversion is never consulted). -/
theorem compute_invalid_input_witness :
    (((0 : ℚ) ≤ 0 ∨ (300 : ℚ) ≤ 0) ∧
      compute 100 "kPa" 300 "K" 28 0 = .error DensityError.InvalidInput) ∧
    (((1 : ℚ) ≤ 0 ∨ (-10 : ℚ) ≤ 0) ∧
      compute 100 "nonsense" (-10) "C" 28 1 = .error DensityError.InvalidInput) :=
  ⟨⟨Or.inl le_rfl, compute_invalid_input 100 300 28 0 "kPa" "K" (Or.inl le_rfl)⟩,
    ⟨Or.inr (by norm_num),
      compute_invalid_input 100 (-10) 28 1 "nonsense" "C" (Or.inr (by norm_num))⟩⟩

/-- C3: for every supported pressure unit U and every value v, converting v
from U to kPa and back to U returns exactly v (exact rational arithmetic). -/
theorem convert_pressure_round_trip (v : ℚ) (u : String)
    (hu : u ∈ pressure_units) :
    (convert_pressure v u "kPa").bind (fun b => convert_pressure b "kPa" u) =
      .ok v := by
  simp only [pressure_units] at hu
  fin_cases hu <;>
    simp [convert_pressure, pressure_to_base, pressure_from_base, Except.bind] <;>
    ring_nf

/-- Witness for C3 at v = 7, U = barg. -/
theorem convert_pressure_round_trip_witness :
    "barg" ∈ pressure_units ∧
    (convert_pressure 7 "barg" "kPa").bind
      (fun b => convert_pressure b "kPa" "barg") = .ok 7 :=
  ⟨by decide, convert_pressure_round_trip 7 "barg" (by decide)⟩

/-- C4: for every supported temperature unit U and every value v, converting v
from U to K and back to U returns exactly v (exact rational arithmetic). -/
theorem convert_temperature_round_trip (v : ℚ) (u : String)
    (hu : u ∈ temp_units) :
    (convert_temperature v u "K").bind (fun b => convert_temperature b "K" u) =
      .ok v := by
  simp only [temp_units] at hu
  fin_cases hu <;>
    simp [convert_temperature, temperature_to_base, temperature_from_base,
      Except.bind] <;>
    ring_nf

/-- Witness for C4 at v = −40, U = F. -/
theorem convert_temperature_round_trip_witness :
    "F" ∈ temp_units ∧
    (convert_temperature (-40) "F" "K").bind
      (fun b => convert_temperature b "K" "F") = .ok (-40) :=
  ⟨by decide, convert_temperature_round_trip (-40) "F" (by decide)⟩

/-- C5: for every supported temperature unit and every raw value v > 0 that
passes the guard, the Kelvin conversion succeeds with a strictly positive
result, so with Z > 0 the denominator `Z * R * T` of the density formula is
nonzero and the division never divides by zero. -/
theorem temperature_k_positive (v z : ℚ) (u : String) (hu : u ∈ temp_units)
    (hv : 0 < v) (hz : 0 < z) :
    ∃ tk, convert_temperature v u "K" = .ok tk ∧ 0 < tk ∧
      z * UNIVERSAL_GAS_CONSTANT * tk ≠ 0 := by
  obtain ⟨tk, hT, hpos⟩ := temperature_to_base_pos v u hu hv
  have hR : (0 : ℚ) < UNIVERSAL_GAS_CONSTANT := by norm_num [UNIVERSAL_GAS_CONSTANT]
  refine ⟨tk, ?_, hpos, ?_⟩
  · rw [convert_temperature_to_k]; exact hT
  · positivity

/-- Witness for C5 at v = 1 °C, Z = 2. -/
theorem temperature_k_positive_witness :
    "C" ∈ temp_units ∧ (0 : ℚ) < 1 ∧ (0 : ℚ) < 2 ∧
    ∃ tk, convert_temperature 1 "C" "K" = .ok tk ∧ 0 < tk ∧
      2 * UNIVERSAL_GAS_CONSTANT * tk ≠ 0 :=
  ⟨by decide, by norm_num, by norm_num,
    temperature_k_positive 1 2 "C" (by decide) (by norm_num) (by norm_num)⟩

/-- C6: `convert_pressure` fails with `UnknownUnit` exactly when the source or
target unit lies outside the set barg, kg/cm2, pasig, kPa, pascal, mmH2O; in
particular it fails on the unit "bar". -/
theorem convert_pressure_unknown_unit :
    (∀ (v : ℚ) (fu tu : String),
      (∃ u, convert_pressure v fu tu = .error (ConvError.UnknownUnit u)) ↔
        (fu ∉ pressure_units ∨ tu ∉ pressure_units)) ∧
    convert_pressure 1 "bar" "kPa" = .error (ConvError.UnknownUnit "bar") := by
  constructor
  · intro v fu tu
    by_cases hfu : fu ∈ pressure_units
    · obtain ⟨b, hb⟩ := pressure_to_base_ok v fu hfu
      by_cases htu : tu ∈ pressure_units
      · obtain ⟨r, hr⟩ := pressure_from_base_ok b tu htu
        simp [convert_pressure, hb, hr, Except.bind, hfu, htu]
      · simp [convert_pressure, hb, pressure_from_base_err b tu htu,
          Except.bind, htu]
    · simp [convert_pressure, pressure_to_base_err v fu hfu, Except.bind, hfu]
  · rfl

/-- C7 counterexample: on inputs P = 101.325 kPa, T = 273.15 K,
MW = 28.97 g/mol, Z = 1, `compute` returns exactly
293538525/227096910 ≈ 1.29253 kg/m³, which is not within 1e-3 of 1.2754. -/
theorem compute_stp_not_12754 :
    (compute 101.325 "kPa" 273.15 "K" 28.97 1).map DensityResult.density =
      .ok (293538525 / 227096910) ∧
    ¬ |(293538525 / 227096910 : ℚ) - 1.2754| ≤ 1 / 1000 := by
  constructor
  · simp [compute, convert_pressure, convert_temperature, pressure_to_base,
      pressure_from_base, temperature_to_base, temperature_from_base,
      Except.bind, Except.map, liftConvError, UNIVERSAL_GAS_CONSTANT]
    norm_num
  · rw [abs_le]
    norm_num

/-- C7 amended: on inputs P = 101.325 kPa, T = 273.15 K, MW = 28.97 g/mol,
Z = 1, `compute` returns a density within 1e-3 of 1.2925 kg/m³ (exact value
293538525/227096910). -/
theorem compute_stp_density :
    (compute 101.325 "kPa" 273.15 "K" 28.97 1).map DensityResult.density =
      .ok (293538525 / 227096910) ∧
    |(293538525 / 227096910 : ℚ) - 1.2925| ≤ 1 / 1000 := by
  constructor
  · simp [compute, convert_pressure, convert_temperature, pressure_to_base,
      pressure_from_base, temperature_to_base, temperature_from_base,
      Except.bind, Except.map, liftConvError, UNIVERSAL_GAS_CONSTANT]
    norm_num
  · rw [abs_le]
    constructor <;> norm_num

/-- C8: `convert_density` returns its value unchanged whenever the two unit
strings coincide (known or not, before any lookup — there is no lookup at
all), and fails with `NotImplemented` for every distinct pair. -/
theorem convert_density_spec (v : ℚ) (fu tu : String) :
    (fu = tu → convert_density v fu tu = .ok v) ∧
    (fu ≠ tu → convert_density v fu tu = .error ConvError.NotImplemented) := by
  constructor <;> intro h <;> simp [convert_density, h]

/-- Witness for C8: identity on the unsupported unit string "x", failure on
the distinct pair ("x", "y"). -/
theorem convert_density_spec_witness :
    ("x" : String) = "x" ∧ convert_density 5 "x" "x" = .ok 5 ∧
    ("x" : String) ≠ "y" ∧
      convert_density 5 "x" "y" = .error ConvError.NotImplemented :=
  ⟨rfl, (convert_density_spec 5 "x" "x").1 rfl, by decide,
    (convert_density_spec 5 "x" "y").2 (by decide)⟩

/-- C9: the temperature converter satisfies the known fixed points:
0 °C is 273.15 K, 32 °F is 0 °C, and 273.15 K is 491.67 °R, exactly. -/
theorem convert_temperature_fixed_points :
    convert_temperature 0 "C" "K" = .ok 273.15 ∧
    convert_temperature 32 "F" "C" = .ok 0 ∧
    convert_temperature 273.15 "K" "R" = .ok 491.67 := by
  refine ⟨?_, ?_, ?_⟩ <;>
    · simp [convert_temperature, temperature_to_base, temperature_from_base,
        Except.bind]
      try norm_num

/-- C10 counterexample: with pressure −200 kPa and molecular weight −2 g/mol
(both of the claim's premise disjuncts satisfied at once), `compute` succeeds
but the density 2000/12471 is strictly positive, not zero or negative. -/
theorem compute_negative_inputs_cex :
    compute (-200) "kPa" 300 "K" (-2) 1 =
      .ok ⟨2000 / 12471, -200000, 300, -1 / 500⟩ ∧
    ((-2 : ℚ) ≤ 0 ∨ (-200000 : ℚ) < 0) ∧
    ¬ (2000 / 12471 : ℚ) ≤ 0 := by
  refine ⟨?_, Or.inl (by norm_num), by norm_num⟩
  simp [compute, convert_pressure, convert_temperature, pressure_to_base,
    pressure_from_base, temperature_to_base, temperature_from_base,
    Except.bind, liftConvError, UNIVERSAL_GAS_CONSTANT]
  norm_num

/-- C10 amended: `compute` applies no positivity check to the molecular weight
or the pressure value: for every input with a supported pressure and
temperature unit, compressibility factor > 0 and raw temperature value > 0,
`compute` succeeds even when the molecular weight is ≤ 0 or the converted
pressure is negative; and unless both are negative at once — that is, when
MW ≤ 0 with converted pressure ≥ 0, or converted pressure ≤ 0 with MW ≥ 0 —
the returned density is zero or negative rather than failing with
`InvalidInput`. -/
theorem compute_no_positivity_check (pv tv mw z : ℚ) (pu tu : String)
    (hpu : pu ∈ pressure_units) (htu : tu ∈ temp_units)
    (hz : 0 < z) (ht : 0 < tv) :
    ∃ r, compute pv pu tv tu mw z = .ok r ∧
      (mw ≤ 0 → 0 ≤ r.pressure_pa → r.density ≤ 0) ∧
      (r.pressure_pa ≤ 0 → 0 ≤ mw → r.density ≤ 0) := by
  obtain ⟨pkpa, hp⟩ := pressure_to_base_ok pv pu hpu
  obtain ⟨tk, hT, htk⟩ := temperature_to_base_pos tv tu htu ht
  have hp2 : convert_pressure pv pu "kPa" = .ok pkpa := by
    rw [convert_pressure_to_kpa]; exact hp
  have hT2 : convert_temperature tv tu "K" = .ok tk := by
    rw [convert_temperature_to_k]; exact hT
  have hR : (0 : ℚ) < UNIVERSAL_GAS_CONSTANT := by norm_num [UNIVERSAL_GAS_CONSTANT]
  have hden : 0 < z * UNIVERSAL_GAS_CONSTANT * tk := by positivity
  refine ⟨_, compute_ok pv tv mw z pkpa tk pu tu hz ht hp2 hT2, ?_, ?_⟩ <;>
    dsimp only <;>
    intro h1 h2
  · have hnum : pkpa * 1000 * (mw / 1000) ≤ 0 := by
      nlinarith [mul_nonneg h2 (by linarith : (0 : ℚ) ≤ -(mw / 1000))]
    exact div_nonpos_iff.mpr (Or.inr ⟨hnum, hden.le⟩)
  · have hnum : pkpa * 1000 * (mw / 1000) ≤ 0 := by
      nlinarith [mul_nonneg (by linarith : (0 : ℚ) ≤ -(pkpa * 1000))
        (by linarith : (0 : ℚ) ≤ mw / 1000)]
    exact div_nonpos_iff.mpr (Or.inr ⟨hnum, hden.le⟩)

/-- Witness for the amended C10 at pressure −100 kPa, MW 5 g/mol, Z 1,
T 300 K. -/
theorem compute_no_positivity_check_witness :
    "kPa" ∈ pressure_units ∧ "K" ∈ temp_units ∧ (0 : ℚ) < 1 ∧ (0 : ℚ) < 300 ∧
    ∃ r, compute (-100) "kPa" 300 "K" 5 1 = .ok r ∧
      ((5 : ℚ) ≤ 0 → 0 ≤ r.pressure_pa → r.density ≤ 0) ∧
      (r.pressure_pa ≤ 0 → 0 ≤ (5 : ℚ) → r.density ≤ 0) :=
  ⟨by decide, by decide, by norm_num, by norm_num,
    compute_no_positivity_check (-100) 300 5 1 "kPa" "K" (by decide) (by decide)
      (by norm_num) (by norm_num)⟩

end DensityCalc
